import Mathlib

/-!
Shallow embedding of `src/api/app_docker.py` — a small control-plane API that
normalizes Docker container states, aggregates per-service status over a
whitelisted registry, dispatches guarded start/stop/restart actions, and
reports host metrics.

Modelling conventions:
  * Python strings are Lean `String`s; `None`-able strings are `Option String`.
  * Python's truthiness of an optional string (`if health:`) is captured
    explicitly: `none` and `some ""` are falsy.
  * Python's `x or d` on strings is `pyOr`: it substitutes `d` when `x` is
    `None` *or* the empty string.
  * The Python `set` of allowed names is modelled as a `List String` used
    only through membership.
  * The Docker client is an opaque runtime: a function from container name to
    `ContainerResult` (not found / API error raised on `containers.get` /
    a found container carrying its `status` attribute and health string).
  * A Flask handler body that can let an exception escape (be turned into a
    generic 500 by the framework) is modelled as `Except String _`, where
    `.error msg` is an uncaught exception carrying the exception text.
  * Dicts built key-by-key in insertion order are association lists.
-/

/-- Python `x or d` for an optional string: `None` and `""` are falsy. -/
def pyOr (x : Option String) (d : String) : String :=
  match x with
  | none => d
  | some s => if s = "" then d else s

/-- ASCII whitespace recognized by Python `str.strip()`. -/
def isPySpace (c : Char) : Bool :=
  c = ' ' || c = '\t' || c = '\n' || c = '\r' || c = '\x0b' || c = '\x0c'

/-- Python `str.strip()`: drop leading and trailing whitespace. -/
def pyStrip (s : String) : String :=
  String.mk (((s.data.dropWhile isPySpace).reverse.dropWhile isPySpace).reverse)

/-- Character-list core of Python `s.split(",")`: splitting the empty string
gives one empty field, and each comma ends the current field. -/
def splitCommaChars : List Char → List (List Char)
  | [] => [[]]
  | c :: cs =>
    match splitCommaChars cs, decide (c = ',') with
    | r, true => [] :: r
    | [], false => [[c]]
    | h :: t, false => (c :: h) :: t

/-- Python `s.split(",")`. -/
def pySplitComma (s : String) : List String :=
  (splitCommaChars s.data).map String.mk

/-- The built-in default whitelist string (the default of `SB_ALLOWED`). -/
def SB_ALLOWED_DEFAULT : String :=
  "qbittorrent,prowlarr,sonarr,radarr,joal,syncthing,caddy,auth,vpn"

/-- `_parse_allowed(env_value)`: fall back to the default when the
environment value is absent or empty, split on commas, strip each item and
keep the non-empty ones (`{item.strip() for item in raw.split(",") if item.strip()}`,
the resulting set modelled as a list used through membership). -/
def _parse_allowed (env_value : Option String) : List String :=
  let raw := pyOr env_value SB_ALLOWED_DEFAULT
  ((pySplitComma raw).map pyStrip).filter (fun item => item != "")

/-- `ALLOWED = _parse_allowed(os.environ.get("SB_ALLOWED"))`, the environment
read abstracted as a parameter. -/
def ALLOWED (sb_allowed : Option String) : List String :=
  _parse_allowed sb_allowed

/-- `SERVICES`: dashboard key -> Docker container name (each value dict
`{"container": name}` collapsed to its single `container` field). -/
def SERVICES : List (String × String) :=
  [("qbittorrent", "qbittorrent"),
   ("prowlarr", "prowlarr"),
   ("sonarr", "sonarr"),
   ("radarr", "radarr"),
   ("joal", "joal"),
   ("syncthing", "syncthing"),
   ("caddy", "caddy"),
   ("auth", "auth"),
   ("vpn", "vpn")]

/-- `HEALTH_MAP`: Docker lifecycle state -> UI-friendly status. -/
def HEALTH_MAP : List (String × String) :=
  [("running", "active"),
   ("created", "inactive"),
   ("restarting", "activating"),
   ("removing", "inactive"),
   ("paused", "inactive"),
   ("exited", "inactive"),
   ("dead", "failed")]

def HOSTFS_PATH : String := "/hostfs"

/-- `_map_status(state, health)`: baseline `HEALTH_MAP.get(state, "unknown")`;
a truthy health value of `"healthy"` / `"unhealthy"` overrides it. -/
def _map_status (state : String) (health : Option String) : String :=
  let mapped := (HEALTH_MAP.lookup state).getD "unknown"
  match health with
  | none => mapped
  | some h =>
    if h = "" then mapped
    else if h = "healthy" then "active"
    else if h = "unhealthy" then "failed"
    else mapped

/-- What `docker_client.containers.get(name)` yields for a given name:
`NotFound`, a raised `APIError` (any other `docker.errors` failure), or a
container with its `status` attribute (`getattr(c, "status", None)`) and
health string (`c.attrs["State"]["Health"]["Status"]`, absent when the
container has no health check). -/
inductive ContainerResult where
  | notFound
  | apiError (msg : String)
  | found (state : Option String) (health : Option String)

/-- The `raw` dict `{"status": state, "health": health}` of a status entry. -/
structure RawBlock where
  status : Option String
  health : Option String

/-- One value of the `/api/status` JSON object: `{"state": ..., "raw": ...}`,
`raw` absent when the source emitted the bare `{"state": "unknown"}`. -/
structure StatusEntry where
  state : String
  raw : Option RawBlock

/-- `_container_status(container_name)`, returning `(mapped, raw)`; the raw
dict `{}` of the not-found branch is `none` (it is falsy in `if raw:`), and an
`APIError` from `containers.get` is uncaught (`.error`). -/
def _container_status (runtime : String → ContainerResult)
    (container_name : String) : Except String (String × Option RawBlock) :=
  match runtime container_name with
  | .notFound => .ok ("unknown", none)
  | .apiError msg => .error msg
  | .found state health =>
    .ok (_map_status (pyOr state "unknown") health, some ⟨state, health⟩)

/-- The `status()` handler for `GET /api/status`: iterate `SERVICES` in
order, skip names not in `allowed`, and record `{"state": mapped, "raw": raw}`
when the raw dict is truthy, else `{"state": "unknown"}`.  An exception from
`_container_status` escapes the loop and aborts the whole response. -/
def statuses (services : List (String × String)) (allowed : List String)
    (runtime : String → ContainerResult) :
    Except String (List (String × StatusEntry)) :=
  match services with
  | [] => .ok []
  | (key, name) :: rest =>
    if name ∈ allowed then
      match _container_status runtime name with
      | .error e => .error e
      | .ok (mapped, raw) =>
        match statuses rest allowed runtime with
        | .error e => .error e
        | .ok out =>
          match raw with
          | some r => .ok ((key, ⟨mapped, some r⟩) :: out)
          | none => .ok ((key, ⟨"unknown", none⟩) :: out)
    else statuses rest allowed runtime

/-- Body of a `POST /api/service/<key>/<action>` response: `{"ok": true}` or
`_json_error(code, message)` = `{"ok": false, "error": {"code": code,
"message": message}}` served with HTTP status `code`. -/
inductive ActionResponse where
  | success
  | error (code : Nat) (message : String)

/-- The `service_action(key, action)` handler.  `actOutcome action name` is
the outcome of `c.restart()` / `c.start()` / `c.stop()`: `some expl` when the
call raises `APIError` whose `e.explanation or str(e)` is `expl`, `none` on
success.  An `APIError` raised by `containers.get` itself is not caught there
(only `NotFound` is) and escapes as `.error`. -/
def service_action (services : List (String × String)) (allowed : List String)
    (runtime : String → ContainerResult)
    (actOutcome : String → String → Option String)
    (key action : String) : Except String ActionResponse :=
  if action ∉ (["restart", "start", "stop"] : List String) then
    .ok (.error 400 "Invalid action (allowed: start, stop, restart).")
  else
    match services.lookup key with
    | none => .ok (.error 404 ("Unknown service key: " ++ key))
    | some name =>
      if name ∉ allowed then
        .ok (.error 403 ("Container \x27" ++ name ++ "\x27 is not allowed."))
      else
        match runtime name with
        | .notFound => .ok (.error 404 ("Container \x27" ++ name ++ "\x27 not found."))
        | .apiError e => .error e
        | .found _ _ =>
          let outcome : Option String :=
            if action = "restart" then actOutcome action name
            else if action = "start" then actOutcome action name
            else if action = "stop" then actOutcome action name
            else none
          match outcome with
          | some expl =>
            .ok (.error 502 ("Docker API error while \x27" ++ action ++
              "\x27 on \x27" ++ name ++ "\x27: " ++ expl))
          | none => .ok .success

/-- Result of `psutil.disk_usage` (sizes in bytes, percent as a number;
Python float arithmetic is modelled over `ℚ`). -/
structure DiskUsage where
  total : Int
  used : Int
  free : Int
  percent : ℚ

/-- Result of `psutil.virtual_memory`. -/
structure VirtualMemory where
  total : Int
  used : Int
  available : Int
  percent : ℚ

/-- Outcome of the `psutil.disk_usage(f"{HOSTFS_PATH}/")` call: the
`FileNotFoundError` branch, any other exception with its text, or success. -/
inductive DiskReadResult where
  | fileNotFound
  | exc (msg : String)
  | ok (du : DiskUsage)

/-- Python `round(x, 1)` modelled over `ℚ`. -/
def pyRound1 (q : ℚ) : ℚ := (round (q * 10) : ℤ) / 10

/-- The flattened JSON body of a 200 `GET /api/sysinfo` response. -/
structure SysinfoBody where
  disk_path : String
  disk_total : Int
  disk_used : Int
  disk_free : Int
  disk_percent : ℚ
  ram_total : Int
  ram_used : Int
  ram_free : Int
  ram_percent : ℚ
  cpu_percent : ℚ
  load1 : Option ℚ
  load5 : Option ℚ
  load15 : Option ℚ

/-- A `GET /api/sysinfo` response: `_json_error(code, message)` (the JSON
envelope `{"ok": false, "error": {"code": code, "message": message}}` served
with HTTP status `code`) or a 200 body. -/
inductive SysResponse where
  | err (code : Nat) (message : String)
  | ok200 (body : SysinfoBody)

/-- The `sysinfo()` handler.  Its host reads are abstracted as parameters:
the disk-usage call, the RAM+CPU try-block (`psutil.virtual_memory()` and
`psutil.cpu_percent(interval=0.1)` succeed or raise together), and the two
load-average sources (`os.getloadavg()` then the `/hostproc/loadavg`
fallback), whose failures leave the loads `None`. -/
def sysinfo (diskRead : DiskReadResult)
    (ramCpuRead : Except String (VirtualMemory × ℚ))
    (getloadavg : Except Unit (ℚ × ℚ × ℚ))
    (procLoadavg : Except Unit (ℚ × ℚ × ℚ)) : SysResponse :=
  match diskRead with
  | .fileNotFound =>
    .err 500 ("Host filesystem mount not found at " ++ HOSTFS_PATH ++ "/")
  | .exc e => .err 500 ("Failed to read disk usage: " ++ e)
  | .ok du =>
    match ramCpuRead with
    | .error e => .err 500 ("Failed to read RAM/CPU stats: " ++ e)
    | .ok (vm, cpu_pct) =>
      let loads : Option ℚ × Option ℚ × Option ℚ :=
        match getloadavg with
        | .ok (l1, l5, l15) => (some l1, some l5, some l15)
        | .error _ =>
          match procLoadavg with
          | .ok (l1, l5, l15) => (some l1, some l5, some l15)
          | .error _ => (none, none, none)
      .ok200 ⟨HOSTFS_PATH, du.total, du.used, du.free, pyRound1 du.percent,
        vm.total, vm.used, vm.available, pyRound1 vm.percent,
        pyRound1 cpu_pct, loads.1, loads.2.1, loads.2.2⟩

/-! ## Theorems -/

/-- Claim C3: with no health value, `_map_status` maps each lifecycle state by
the fixed table (running→active, created→inactive, restarting→activating,
removing→inactive, paused→inactive, exited→inactive, dead→failed), and every
lifecycle state outside the table yields `"unknown"`; the function is total by
construction. -/
theorem map_status_fixed_table :
    (_map_status "running" none = "active" ∧
     _map_status "created" none = "inactive" ∧
     _map_status "restarting" none = "activating" ∧
     _map_status "removing" none = "inactive" ∧
     _map_status "paused" none = "inactive" ∧
     _map_status "exited" none = "inactive" ∧
     _map_status "dead" none = "failed") ∧
    ∀ state : String,
      state ∉ (["running", "created", "restarting", "removing", "paused",
                "exited", "dead"] : List String) →
      _map_status state none = "unknown" := by
  refine ⟨⟨rfl, rfl, rfl, rfl, rfl, rfl, rfl⟩, ?_⟩
  intro state hs
  simp only [List.mem_cons, List.not_mem_nil, or_false, not_or] at hs
  obtain ⟨h1, h2, h3, h4, h5, h6, h7⟩ := hs
  have b1 : (state == "running") = false := beq_eq_false_iff_ne.mpr h1
  have b2 : (state == "created") = false := beq_eq_false_iff_ne.mpr h2
  have b3 : (state == "restarting") = false := beq_eq_false_iff_ne.mpr h3
  have b4 : (state == "removing") = false := beq_eq_false_iff_ne.mpr h4
  have b5 : (state == "paused") = false := beq_eq_false_iff_ne.mpr h5
  have b6 : (state == "exited") = false := beq_eq_false_iff_ne.mpr h6
  have b7 : (state == "dead") = false := beq_eq_false_iff_ne.mpr h7
  simp [_map_status, HEALTH_MAP, List.lookup, b1, b2, b3, b4, b5, b6, b7]

/-- Witness for C3 at the unmapped state `"garbage"`. -/
theorem map_status_fixed_table_witness : _map_status "garbage" none = "unknown" :=
  map_status_fixed_table.2 "garbage" (by decide)

/-- Claim C4: for every lifecycle state, health `"healthy"` forces `"active"`
and `"unhealthy"` forces `"failed"` (health overrides the lifecycle baseline),
while any other health value leaves the result equal to the no-health case. -/
theorem map_status_health_precedence :
    ∀ state : String,
      _map_status state (some "healthy") = "active" ∧
      _map_status state (some "unhealthy") = "failed" ∧
      ∀ health : Option String,
        health ≠ some "healthy" → health ≠ some "unhealthy" →
        _map_status state health = _map_status state none := by
  intro state
  refine ⟨rfl, rfl, ?_⟩
  intro health h1 h2
  match health with
  | none => rfl
  | some h =>
    simp only [ne_eq, Option.some.injEq] at h1 h2
    by_cases he : h = ""
    · simp [_map_status, he]
    · simp [_map_status, he, h1, h2]

/-- Witness for C4: the non-terminal health value `"starting"` does not
override the baseline. -/
theorem map_status_health_precedence_witness :
    _map_status "running" (some "starting") = _map_status "running" none :=
  (map_status_health_precedence "running").2.2 (some "starting") (by decide) (by decide)

/-- Claim C9: an empty-string health value is falsy in the source's
`if health:` guard, so `_map_status` treats it exactly like an absent one. -/
theorem map_status_empty_health_like_none :
    ∀ state : String, _map_status state (some "") = _map_status state none :=
  fun _ => rfl

/-- Claim C7: `_parse_allowed` substitutes the built-in default whitelist when
the configuration value is absent or empty, and otherwise a string belongs to
the parsed whitelist exactly when it is the non-empty trim of one of the
comma-separated fields. -/
theorem parse_allowed_spec :
    (_parse_allowed none =
      ["qbittorrent", "prowlarr", "sonarr", "radarr", "joal",
       "syncthing", "caddy", "auth", "vpn"]) ∧
    (_parse_allowed (some "") = _parse_allowed none) ∧
    ∀ s x : String, s ≠ "" →
      (x ∈ _parse_allowed (some s) ↔
        x ≠ "" ∧ ∃ p ∈ pySplitComma s, pyStrip p = x) := by
  refine ⟨rfl, rfl, ?_⟩
  intro s x hs
  simp only [_parse_allowed, pyOr, if_neg hs, List.mem_filter, List.mem_map,
    bne_iff_ne, ne_eq]
  tauto

/-- Witness for C7 on the concrete configuration string `" sonarr , radarr "`. -/
theorem parse_allowed_spec_witness :
    "sonarr" ∈ _parse_allowed (some " sonarr , radarr ") :=
  (parse_allowed_spec.2.2 " sonarr , radarr " "sonarr" (by decide)).2
    ⟨by decide, " sonarr ", by decide, by decide⟩

/-- Auxiliary: with an empty whitelist every registry entry is skipped, so the
aggregation yields the empty JSON object whatever the runtime reports. -/
theorem statuses_empty_allowed (services : List (String × String))
    (runtime : String → ContainerResult) :
    statuses services [] runtime = .ok [] := by
  induction services with
  | nil => rfl
  | cons hd tl ih =>
    obtain ⟨key, name⟩ := hd
    simp [statuses, ih]

/-- Claim C10: a non-empty configuration string containing only whitespace
and commas (here `" , "`) parses to the empty whitelist — the built-in default
is not substituted — and `GET /api/status` then returns the empty JSON object
regardless of the runtime's state. -/
theorem whitespace_whitelist_empty_status :
    ALLOWED (some " , ") = [] ∧
    ∀ runtime : String → ContainerResult,
      statuses SERVICES (ALLOWED (some " , ")) runtime = .ok [] := by
  refine ⟨rfl, ?_⟩
  intro runtime
  have h : ALLOWED (some " , ") = [] := rfl
  rw [h]
  exact statuses_empty_allowed SERVICES runtime

/-- Claim C1: the dispatcher's checks run in a fixed order and the first
failing one determines the response — invalid action → 400 (regardless of the
key, so also when the key is unknown); then unknown key → 404; then a resolved
name outside the whitelist → 403; then a runtime-absent container → 404; then
an `APIError` from the start/stop/restart call → 502 carrying the runtime's
diagnostic text. -/
theorem service_action_validation_order
    (services : List (String × String)) (allowed : List String)
    (runtime : String → ContainerResult)
    (actOutcome : String → String → Option String)
    (key action : String) :
    (action ∉ (["restart", "start", "stop"] : List String) →
      service_action services allowed runtime actOutcome key action =
        .ok (.error 400 "Invalid action (allowed: start, stop, restart).")) ∧
    (action ∈ (["restart", "start", "stop"] : List String) →
      services.lookup key = none →
      service_action services allowed runtime actOutcome key action =
        .ok (.error 404 ("Unknown service key: " ++ key))) ∧
    (∀ name, action ∈ (["restart", "start", "stop"] : List String) →
      services.lookup key = some name → name ∉ allowed →
      service_action services allowed runtime actOutcome key action =
        .ok (.error 403 ("Container \x27" ++ name ++ "\x27 is not allowed."))) ∧
    (∀ name, action ∈ (["restart", "start", "stop"] : List String) →
      services.lookup key = some name → name ∈ allowed →
      runtime name = .notFound →
      service_action services allowed runtime actOutcome key action =
        .ok (.error 404 ("Container \x27" ++ name ++ "\x27 not found."))) ∧
    (∀ name st health expl, action ∈ (["restart", "start", "stop"] : List String) →
      services.lookup key = some name → name ∈ allowed →
      runtime name = .found st health →
      actOutcome action name = some expl →
      service_action services allowed runtime actOutcome key action =
        .ok (.error 502 ("Docker API error while \x27" ++ action ++
          "\x27 on \x27" ++ name ++ "\x27: " ++ expl))) := by
  refine ⟨?_, ?_, ?_, ?_, ?_⟩
  · intro h
    simp [service_action, h]
  · intro ha hk
    simp [service_action, ha, hk]
  · intro name ha hk hal
    simp [service_action, ha, hk, hal]
  · intro name ha hk hal hrt
    simp [service_action, ha, hk, hal, hrt]
  · intro name st health expl ha hk hal hrt hact
    simp only [List.mem_cons, List.not_mem_nil, or_false] at ha
    rcases ha with rfl | rfl | rfl
    · simp [service_action, hk, hal, hrt, hact]
    · simp [service_action, hk, hal, hrt, hact]
    · simp [service_action, hk, hal, hrt, hact]

/-- Witness for C1: each of the five error categories reached at a concrete
request against the compiled-in registry and default whitelist. -/
theorem service_action_validation_order_witness :
    (service_action SERVICES (ALLOWED none) (fun _ => .notFound)
      (fun _ _ => none) "ghost" "pause" =
      .ok (.error 400 "Invalid action (allowed: start, stop, restart).")) ∧
    (service_action SERVICES (ALLOWED none) (fun _ => .notFound)
      (fun _ _ => none) "ghost" "start" =
      .ok (.error 404 ("Unknown service key: " ++ "ghost"))) ∧
    (service_action SERVICES (ALLOWED (some "sonarr")) (fun _ => .notFound)
      (fun _ _ => none) "radarr" "restart" =
      .ok (.error 403 ("Container \x27" ++ "radarr" ++ "\x27 is not allowed."))) ∧
    (service_action SERVICES (ALLOWED none) (fun _ => .notFound)
      (fun _ _ => none) "sonarr" "stop" =
      .ok (.error 404 ("Container \x27" ++ "sonarr" ++ "\x27 not found."))) ∧
    (service_action SERVICES (ALLOWED none)
      (fun _ => .found (some "running") none) (fun _ _ => some "boom")
      "sonarr" "restart" =
      .ok (.error 502 ("Docker API error while \x27" ++ "restart" ++
        "\x27 on \x27" ++ "sonarr" ++ "\x27: " ++ "boom"))) := by
  refine ⟨?_, ?_, ?_, ?_, ?_⟩
  · exact (service_action_validation_order SERVICES (ALLOWED none)
      (fun _ => .notFound) (fun _ _ => none) "ghost" "pause").1 (by decide)
  · exact (service_action_validation_order SERVICES (ALLOWED none)
      (fun _ => .notFound) (fun _ _ => none) "ghost" "start").2.1 (by decide) rfl
  · exact (service_action_validation_order SERVICES (ALLOWED (some "sonarr"))
      (fun _ => .notFound) (fun _ _ => none) "radarr" "restart").2.2.1
      "radarr" (by decide) rfl (by decide)
  · exact (service_action_validation_order SERVICES (ALLOWED none)
      (fun _ => .notFound) (fun _ _ => none) "sonarr" "stop").2.2.2.1
      "sonarr" (by decide) rfl (by decide) rfl
  · exact (service_action_validation_order SERVICES (ALLOWED none)
      (fun _ => .found (some "running") none) (fun _ _ => some "boom")
      "sonarr" "restart").2.2.2.2
      "sonarr" (some "running") none "boom" (by decide) rfl (by decide) rfl rfl

/-- Counterexample to C2 as stated: with two whitelisted registry entries
where the runtime raises an `APIError` for `"a"` and reports `"b"` running,
the aggregation aborts with the exception — it yields no per-key output at
all, so the healthy remaining entry `"b"` is not aggregated and the failing
entry is not reported as `"unknown"`. -/
theorem status_query_failure_aborts :
    statuses [("a", "a"), ("b", "b")] ["a", "b"]
      (fun n => if n = "a" then .apiError "boom" else .found (some "running") none) =
      .error "boom" := rfl

/-- Claim C2 (amended): only a not-found result is isolated per entry — the
entry is reported as `{state: "unknown"}` with no raw block and the
aggregation of the remaining entries proceeds — while a runtime query failure
(`APIError` from `containers.get`) propagates and aborts the entire
aggregation. -/
theorem status_error_isolation_amended
    (key name : String) (rest : List (String × String)) (allowed : List String)
    (runtime : String → ContainerResult) :
    name ∈ allowed →
    ((∀ out, runtime name = .notFound →
        statuses rest allowed runtime = .ok out →
        statuses ((key, name) :: rest) allowed runtime =
          .ok ((key, ⟨"unknown", none⟩) :: out)) ∧
     (∀ e, runtime name = .apiError e →
        statuses ((key, name) :: rest) allowed runtime = .error e)) := by
  intro hal
  constructor
  · intro out hnf hrest
    simp [statuses, hal, _container_status, hnf, hrest]
  · intro e herr
    simp [statuses, hal, _container_status, herr]

/-- Witness for the amended C2 at a concrete registry and runtime. -/
theorem status_error_isolation_amended_witness :
    (statuses [("a", "a"), ("b", "b")] ["a", "b"] (fun _ => .notFound) =
      .ok [("a", ⟨"unknown", none⟩), ("b", ⟨"unknown", none⟩)]) ∧
    (statuses [("a", "a")] ["a"] (fun _ => .apiError "oops") = .error "oops") := by
  constructor
  · exact (status_error_isolation_amended "a" "a" [("b", "b")] ["a", "b"]
      (fun _ => .notFound) (by decide)).1 [("b", ⟨"unknown", none⟩)] rfl rfl
  · exact (status_error_isolation_amended "a" "a" [] ["a"]
      (fun _ => .apiError "oops") (by decide)).2 "oops" rfl

/-- Auxiliary: every key of a successful aggregation comes from the registry. -/
theorem statuses_keys_subset :
    ∀ (services : List (String × String)) (allowed : List String)
      (runtime : String → ContainerResult) (out : List (String × StatusEntry)),
      statuses services allowed runtime = .ok out →
      ∀ k, k ∈ out.map Prod.fst → k ∈ services.map Prod.fst := by
  intro services
  induction services with
  | nil =>
    intro allowed runtime out h k hk
    simp only [statuses] at h
    cases h
    simp at hk
  | cons hd tl ih =>
    obtain ⟨key, name⟩ := hd
    intro allowed runtime out h k hk
    by_cases hal : name ∈ allowed
    · rw [statuses, if_pos hal] at h
      cases hcs : _container_status runtime name with
      | error e => simp [hcs] at h
      | ok pr =>
        obtain ⟨mapped, raw⟩ := pr
        cases hrest : statuses tl allowed runtime with
        | error e => simp [hcs, hrest] at h
        | ok out2 =>
          cases raw with
          | some r =>
            simp only [hcs, hrest] at h
            cases h
            simp only [List.map_cons, List.mem_cons] at hk ⊢
            rcases hk with rfl | hk
            · exact Or.inl rfl
            · exact Or.inr (ih allowed runtime out2 hrest k hk)
          | none =>
            simp only [hcs, hrest] at h
            cases h
            simp only [List.map_cons, List.mem_cons] at hk ⊢
            rcases hk with rfl | hk
            · exact Or.inl rfl
            · exact Or.inr (ih allowed runtime out2 hrest k hk)
    · rw [statuses, if_neg hal] at h
      exact List.mem_cons_of_mem _ (ih allowed runtime out h k hk)

/-- Claim C5: in a registry with distinct keys, an entry whose container name
is not whitelisted contributes no key at all to a successful aggregation. -/
theorem status_excludes_non_whitelisted :
    ∀ (services : List (String × String)) (allowed : List String)
      (runtime : String → ContainerResult) (key name : String)
      (out : List (String × StatusEntry)),
      (services.map Prod.fst).Nodup →
      (key, name) ∈ services → name ∉ allowed →
      statuses services allowed runtime = .ok out →
      key ∉ out.map Prod.fst := by
  intro services
  induction services with
  | nil =>
    intro allowed runtime key name out _ hmem
    simp at hmem
  | cons hd tl ih =>
    obtain ⟨k0, n0⟩ := hd
    intro allowed runtime key name out hnd hmem hna h
    simp only [List.map_cons, List.nodup_cons] at hnd
    obtain ⟨hk0, hndtl⟩ := hnd
    rcases List.mem_cons.mp hmem with heq | hmem2
    · obtain ⟨rfl, rfl⟩ := Prod.mk.injEq .. ▸ heq
      rw [statuses, if_neg hna] at h
      intro hcon
      exact hk0 (statuses_keys_subset tl allowed runtime out h key hcon)
    · have hkey : key ∈ tl.map Prod.fst :=
        List.mem_map_of_mem Prod.fst hmem2
      have hkne : key ≠ k0 := fun he => hk0 (he ▸ hkey)
      by_cases hal : n0 ∈ allowed
      · rw [statuses, if_pos hal] at h
        cases hcs : _container_status runtime n0 with
        | error e => simp [hcs] at h
        | ok pr =>
          obtain ⟨mapped, raw⟩ := pr
          cases hrest : statuses tl allowed runtime with
          | error e => simp [hcs, hrest] at h
          | ok out2 =>
            cases raw with
            | some r =>
              simp only [hcs, hrest] at h
              cases h
              simp only [List.map_cons, List.mem_cons, not_or]
              exact ⟨hkne, ih allowed runtime key name out2 hndtl hmem2 hna hrest⟩
            | none =>
              simp only [hcs, hrest] at h
              cases h
              simp only [List.map_cons, List.mem_cons, not_or]
              exact ⟨hkne, ih allowed runtime key name out2 hndtl hmem2 hna hrest⟩
      · rw [statuses, if_neg hal] at h
        exact ih allowed runtime key name out hndtl hmem2 hna h

/-- Witness for C5: with whitelist `["y"]`, the entry `("a", "x")` is absent
from the aggregated output. -/
theorem status_excludes_non_whitelisted_witness :
    "a" ∉ ([("b", (⟨"unknown", none⟩ : StatusEntry))].map Prod.fst) :=
  status_excludes_non_whitelisted [("a", "x"), ("b", "y")] ["y"]
    (fun _ => .notFound) "a" "x" [("b", ⟨"unknown", none⟩)]
    (by decide) (by decide) (by decide) rfl

/-- Auxiliary: the source guards the state attribute with `state or "unknown"`;
since neither `""` nor `"unknown"` is in `HEALTH_MAP`, this guard never changes
the normalized result for a present state string. -/
theorem map_status_pyOr (s : String) (health : Option String) :
    _map_status (pyOr (some s) "unknown") health = _map_status s health := by
  by_cases hs : s = ""
  · subst hs
    cases health with
    | none => rfl
    | some h => rfl
  · simp [pyOr, hs]

/-- Claim C6: a whitelisted registry entry whose container the runtime reports
as not found is emitted as exactly `{state: "unknown"}` with no raw block,
while an existing one is emitted as `{state: normalize(state, health),
raw: {status: state, health: health}}`. -/
theorem status_whitelisted_entry :
    ∀ (services : List (String × String)) (allowed : List String)
      (runtime : String → ContainerResult) (key name : String),
      services.lookup key = some name → name ∈ allowed →
      ∀ out, statuses services allowed runtime = .ok out →
        ((runtime name = .notFound →
          out.lookup key = some ⟨"unknown", none⟩) ∧
         (∀ s health, runtime name = .found (some s) health →
          out.lookup key =
            some ⟨_map_status s health, some ⟨some s, health⟩⟩)) := by
  intro services
  induction services with
  | nil =>
    intro allowed runtime key name hlk
    simp [List.lookup] at hlk
  | cons hd tl ih =>
    obtain ⟨k0, n0⟩ := hd
    intro allowed runtime key name hlk hal out h
    by_cases hkey : key = k0
    · subst hkey
      have hbeq : (key == key) = true := beq_self_eq_true key
      rw [List.lookup, hbeq] at hlk
      cases hlk
      rw [statuses, if_pos hal] at h
      constructor
      · intro hnf
        have hcs : _container_status runtime n0 = .ok ("unknown", none) := by
          simp [_container_status, hnf]
        cases hrest : statuses tl allowed runtime with
        | error e => simp [hcs, hrest] at h
        | ok out2 =>
          simp only [hcs, hrest] at h
          cases h
          simp [List.lookup]
      · intro s health hf
        have hcs : _container_status runtime n0 =
            .ok (_map_status (pyOr (some s) "unknown") health,
              some ⟨some s, health⟩) := by
          simp [_container_status, hf]
        cases hrest : statuses tl allowed runtime with
        | error e => simp [hcs, hrest] at h
        | ok out2 =>
          simp only [hcs, hrest] at h
          cases h
          simp [List.lookup, map_status_pyOr]
    · have hbeq : (key == k0) = false := beq_eq_false_iff_ne.mpr hkey
      rw [List.lookup, hbeq] at hlk
      by_cases hal0 : n0 ∈ allowed
      · rw [statuses, if_pos hal0] at h
        cases hcs : _container_status runtime n0 with
        | error e => simp [hcs] at h
        | ok pr =>
          obtain ⟨mapped, raw⟩ := pr
          cases hrest : statuses tl allowed runtime with
          | error e => simp [hcs, hrest] at h
          | ok out2 =>
            cases raw with
            | some r =>
              simp only [hcs, hrest] at h
              cases h
              have := ih allowed runtime key name hlk hal out2 hrest
              constructor
              · intro hnf
                rw [List.lookup, hbeq]
                exact this.1 hnf
              · intro s health hf
                rw [List.lookup, hbeq]
                exact this.2 s health hf
            | none =>
              simp only [hcs, hrest] at h
              cases h
              have := ih allowed runtime key name hlk hal out2 hrest
              constructor
              · intro hnf
                rw [List.lookup, hbeq]
                exact this.1 hnf
              · intro s health hf
                rw [List.lookup, hbeq]
                exact this.2 s health hf
      · rw [statuses, if_neg hal0] at h
        exact ih allowed runtime key name hlk hal out h

/-- Witness for C6: a runtime-absent whitelisted entry and a running healthy
one, each looked up in the concrete aggregated output. -/
theorem status_whitelisted_entry_witness :
    ([("sonarr", (⟨"unknown", none⟩ : StatusEntry))].lookup "sonarr" =
      some ⟨"unknown", none⟩) ∧
    ([("sonarr", (⟨"active", some ⟨some "running", some "healthy"⟩⟩ :
        StatusEntry))].lookup "sonarr" =
      some ⟨_map_status "running" (some "healthy"),
        some ⟨some "running", some "healthy"⟩⟩) := by
  constructor
  · exact (status_whitelisted_entry [("sonarr", "sonarr")] ["sonarr"]
      (fun _ => .notFound) "sonarr" "sonarr" rfl (by decide)
      [("sonarr", ⟨"unknown", none⟩)] rfl).1 rfl
  · exact (status_whitelisted_entry [("sonarr", "sonarr")] ["sonarr"]
      (fun _ => .found (some "running") (some "healthy")) "sonarr" "sonarr"
      rfl (by decide)
      [("sonarr", ⟨"active", some ⟨some "running", some "healthy"⟩⟩)] rfl).2
      "running" (some "healthy") rfl

/-- Claim C8: any failure of the disk or RAM/CPU reads makes `GET /api/sysinfo`
answer 500 with the `{ok: false, error: {code: 500, message}}` envelope, while
unavailable load averages (both `os.getloadavg()` and the `/proc` fallback
failing) only null the three load fields of a 200 response. -/
theorem sysinfo_failure_modes :
    (∀ (ramCpu : Except String (VirtualMemory × ℚ))
       (l1 l2 : Except Unit (ℚ × ℚ × ℚ)),
      sysinfo .fileNotFound ramCpu l1 l2 =
        .err 500 ("Host filesystem mount not found at " ++ HOSTFS_PATH ++ "/")) ∧
    (∀ (e : String) (ramCpu : Except String (VirtualMemory × ℚ))
       (l1 l2 : Except Unit (ℚ × ℚ × ℚ)),
      sysinfo (.exc e) ramCpu l1 l2 =
        .err 500 ("Failed to read disk usage: " ++ e)) ∧
    (∀ (du : DiskUsage) (e : String) (l1 l2 : Except Unit (ℚ × ℚ × ℚ)),
      sysinfo (.ok du) (.error e) l1 l2 =
        .err 500 ("Failed to read RAM/CPU stats: " ++ e)) ∧
    (∀ (du : DiskUsage) (vm : VirtualMemory) (cpu_pct : ℚ),
      sysinfo (.ok du) (.ok (vm, cpu_pct)) (.error ()) (.error ()) =
        .ok200 ⟨HOSTFS_PATH, du.total, du.used, du.free, pyRound1 du.percent,
          vm.total, vm.used, vm.available, pyRound1 vm.percent,
          pyRound1 cpu_pct, none, none, none⟩) :=
  ⟨fun _ _ _ => rfl, fun _ _ _ _ => rfl, fun _ _ _ _ => rfl, fun _ _ _ => rfl⟩
